import Mathlib

set_option maxRecDepth 20000
set_option maxHeartbeats 4000000

/-!
A shallow embedding of `src/main.py`: a two-process relay made of a threaded
HTTP server (`do_GET`, `do_POST`, `send_to_socket`, `send_html_file`,
`send_static_file`, `send_error_page`) and a socket server
(`run_socket_server`, `handle_socket_connection`) that persists JSON-encoded
messages to a document store.

External collaborators are passed as explicit parameters: the filesystem is a
function `String → ReadResult` keyed by OS-resolved relative paths,
`mimetypes.guess_type` is a function `String → Option String`, the TCP
transport outcome and the MongoDB insert outcome are booleans, and
`datetime.now()` is a `Nat` timestamp.  The standard-library pieces the
relay's observable behaviour runs through — `json.loads`, `json.dumps`,
UTF-8 encoding and decoding, `dict` item assignment — are embedded as
executable functions below.
-/

/-- Python exceptions that can escape a request handler in the embedded
fragment of the program. -/
inductive PyExn where
  | typeError       -- e.g. int(None), or item assignment on a non-dict
  | recursionError  -- unbounded recursion hits the interpreter limit
  | osError         -- an OSError other than FileNotFoundError

/-- The unit transferred end to end: the two form fields extracted by
do_POST (each defaulted to the empty string when absent). -/
structure Message where
  username : String
  message : String

/-- Observable I/O events emitted by an HTTP request handler, in order. -/
inductive Ev where
  | deliver (m : Message)  -- one socket connect plus one sendall toward the socket server
  | logError               -- logging.error(...)
  | page (status : Nat) (file : String) (contentType : String)  -- a complete file response
  | redirect (location : String)  -- send_response(302) plus a Location header

/-- Result of open(path, "rb") followed by file.read() on the host
filesystem, keyed by the OS-resolved relative path. -/
inductive ReadResult where
  | found      -- the file opens and reads successfully
  | notFound   -- FileNotFoundError
  | otherError -- any other read failure (permissions, directory, ...)

/-- params.get(key, [""])[0] applied to the result of
urllib.parse.parse_qs: absent key gives "", present key gives the first
value (parse_qs never produces an empty value list, so list[0] is total). -/
def getFormValue (params : List (String × List String)) (key : String) : String :=
  match params.find? (fun p => p.1 == key) with
  | some p => p.2.headD ""
  | none => ""

/-- Split a relative path into segments at each slash character. -/
def splitSegs (cur : List Char) : List Char → List String
  | [] => [String.mk cur.reverse]
  | c :: rest =>
    if c = '/' then String.mk cur.reverse :: splitSegs [] rest
    else splitSegs (c :: cur) rest

/-- Resolve "." and ".." and empty segments the way the OS resolves a
relative path against the working directory; ".." segments escaping the
start of the path are kept (they climb above the working directory). -/
def normSegsRev (racc : List String) : List String → List String
  | [] => racc
  | s :: rest =>
    if s = "" ∨ s = "." then normSegsRev racc rest
    else if s = ".." then
      match racc with
      | [] => normSegsRev [".."] rest
      | t :: racc2 =>
        if t = ".." then normSegsRev (".." :: t :: racc2) rest
        else normSegsRev racc2 rest
    else normSegsRev (s :: racc) rest

/-- The OS-resolved form of the relative path that the Python code hands to
open(): the file actually read is identified by this resolved path. -/
def normalizePath (p : String) : String :=
  String.intercalate "/" (normSegsRev [] (splitSegs [] p.data)).reverse

/-- route.startswith("/static/") -/
def isStaticRoute (route : String) : Bool :=
  "/static/".data.isPrefixOf route.data

/-- route[1:] — Python slicing is by characters. -/
def pySlice1 (s : String) : String :=
  String.mk (s.data.drop 1)

/-- Whether a resolved path lies inside the given directory root. -/
def underRoot (root p : String) : Bool :=
  p == root || (root ++ "/").data.isPrefixOf p.data

/-- SimpleHTTPRequestHandler.send_html_file: open the named file and send
it with the given status and a text/html content type; on FileNotFoundError
fall back to send_error_page, which re-enters this function on
"error.html" — the Python method pair is mutually recursive, so an
unreadable error page recurses without bound.  The fuel models the Python
recursion limit; exhausting it is RecursionError.  Only FileNotFoundError
is caught: any other read failure propagates as an uncaught OSError. -/
def send_html_file (fs : String → ReadResult) : Nat → String → Nat → Except PyExn (List Ev)
  | 0, _, _ => .error .recursionError
  | fuel + 1, filename, status =>
    match fs filename with
    | .found => .ok [.page status filename "text/html"]
    | .notFound => send_html_file fs fuel "error.html" 404
    | .otherError => .error .osError

/-- SimpleHTTPRequestHandler.send_error_page. -/
def send_error_page (fs : String → ReadResult) (fuel : Nat) : Except PyExn (List Ev) :=
  send_html_file fs fuel "error.html" 404

/-- SimpleHTTPRequestHandler.send_static_file: open() resolves the raw
relative path (the code performs no containment check), while the content
type comes from mimetypes.guess_type on the unresolved path, with
"application/octet-stream" as the fallback for an unknown extension.
Only FileNotFoundError is caught (falling back to the error page). -/
def send_static_file (fs : String → ReadResult) (guess : String → Option String)
    (fuel : Nat) (filepath : String) : Except PyExn (List Ev) :=
  match fs (normalizePath filepath) with
  | .found =>
    .ok [.page 200 (normalizePath filepath) ((guess filepath).getD "application/octet-stream")]
  | .notFound => send_error_page fs fuel
  | .otherError => .error .osError

/-- SimpleHTTPRequestHandler.do_GET as a function of the parsed request
path (urlparse(self.path).path). -/
def do_GET (fs : String → ReadResult) (guess : String → Option String)
    (fuel : Nat) (route : String) : Except PyExn (List Ev) :=
  if route = "/" ∨ route = "/index.html" then send_html_file fs fuel "index.html" 200
  else if route = "/message.html" then send_html_file fs fuel "message.html" 200
  else if route = "/error.html" then send_html_file fs fuel "error.html" 200
  else if isStaticRoute route then send_static_file fs guess fuel (pySlice1 route)
  else send_error_page fs fuel

/-- SimpleHTTPRequestHandler.send_to_socket: validate that both fields are
non-empty (logging and serving the error page when not, then returning to
the caller), otherwise perform one TCP connect plus one sendall inside
try/except — transportOk abstracts whether that connect+send succeeds, and
a transport failure is only logged. -/
def send_to_socket (fs : String → ReadResult) (fuel : Nat)
    (message : Message) (transportOk : Bool) : Except PyExn (List Ev) :=
  if message.username = "" ∨ message.message = "" then
    (send_error_page fs fuel).map (fun evs => .logError :: evs)
  else if transportOk then .ok [.deliver message]
  else .ok [.deliver message, .logError]

/-- SimpleHTTPRequestHandler.do_POST as a function of the request path, the
Content-Length header (when absent, int(None) raises an uncaught TypeError
before the body is read) and the parse_qs form fields.  After the
send_to_socket call returns — including on its validation-failure path,
whose Python `return` only exits that helper method — do_POST
unconditionally runs redirect_to_home, i.e. send_response(302) with
Location "/". -/
def do_POST (fs : String → ReadResult) (fuel : Nat) (path : String)
    (contentLength : Option Nat) (params : List (String × List String))
    (transportOk : Bool) : Except PyExn (List Ev) :=
  if path = "/message" then
    match contentLength with
    | none => .error .typeError
    | some _ =>
      match send_to_socket fs fuel
          ⟨getFormValue params "username", getFormValue params "message"⟩ transportOk with
      | .error e => .error e
      | .ok evs => .ok (evs ++ [.redirect "/"])
  else send_error_page fs fuel

/-- Python values produced by json.loads (numbers are kept as their
lexemes, since nothing downstream looks at a numeric value), plus the
datetime stamp the socket handler assigns under the "date" key. -/
inductive JValue where
  | str (s : String)
  | numLit (lexeme : String)
  | bool (b : Bool)
  | null
  | arr (elems : List JValue)
  | obj (fields : List (String × JValue))
  | date (t : Nat)   -- datetime.now(); never produced by the parser

/-- Python dict item assignment d[k] = v: replace in place when the key is
present (keeping its position), append otherwise. -/
def setItem (fields : List (String × JValue)) (k : String) (v : JValue) :
    List (String × JValue) :=
  match fields with
  | [] => [(k, v)]
  | (k0, v0) :: rest =>
    if k0 = k then (k0, v) :: rest else (k0, v0) :: setItem rest k v

/-- Python dict lookup d.get(k). -/
def getItem (fields : List (String × JValue)) (k : String) : Option JValue :=
  match fields with
  | [] => none
  | (k0, v0) :: rest => if k0 = k then some v0 else getItem rest k

/-- The whitespace skipped between JSON tokens (space, tab, LF, CR). -/
def skipWs : List Char → List Char
  | [] => []
  | c :: rest =>
    if c = ' ' ∨ c = '\t' ∨ c = '\n' ∨ c = '\r' then skipWs rest
    else c :: rest

/-- Value of one hexadecimal digit, as accepted in a \u escape. -/
def hexVal (c : Char) : Option Nat :=
  if '0' ≤ c ∧ c ≤ '9' then some (c.toNat - 48)
  else if 'a' ≤ c ∧ c ≤ 'f' then some (c.toNat - 87)
  else if 'A' ≤ c ∧ c ≤ 'F' then some (c.toNat - 55)
  else none

/-- Lowercase hexadecimal digit, as emitted by json.dumps in \u escapes. -/
def hexDigit (n : Nat) : Char :=
  if n < 10 then Char.ofNat (48 + n) else Char.ofNat (87 + n)

/-- The single-character string escapes of JSON. -/
def simpleEsc (e : Char) : Option Char :=
  if e = '"' then some '"'
  else if e = '\\' then some '\\'
  else if e = '/' then some '/'
  else if e = 'b' then some '\x08'
  else if e = 'f' then some '\x0c'
  else if e = 'n' then some '\n'
  else if e = 'r' then some '\r'
  else if e = 't' then some '\t'
  else none

/-- After a high-surrogate \u escape: the low-surrogate \u escape that must
follow, combined into one supplementary-plane scalar value. -/
def escPair (hi : Nat) : List Char → Except Unit (Char × List Char)
  | s1 :: s2 :: a2 :: b2 :: c3 :: d2 :: rest4 =>
    if s1 = '\\' ∧ s2 = 'u' then
      match hexVal a2, hexVal b2, hexVal c3, hexVal d2 with
      | some y1, some y2, some y3, some y4 =>
        let lo := ((y1 * 16 + y2) * 16 + y3) * 16 + y4
        if 0xdc00 ≤ lo ∧ lo ≤ 0xdfff then
          .ok (Char.ofNat (0x10000 + (hi - 0xd800) * 0x400 + (lo - 0xdc00)), rest4)
        else .error ()
      | _, _, _, _ => .error ()
    else .error ()
  | _ => .error ()

/-- A \u escape: four hex digits, with a high surrogate pulling in its
following low-surrogate escape.  (A lone surrogate escape, which Python
would keep as a lone surrogate in its string type, has no Lean `Char`
counterpart and is treated as a parse error here; no claim depends on such
payloads.) -/
def escU : List Char → Except Unit (Char × List Char)
  | a :: b :: c2 :: d :: rest3 =>
    match hexVal a, hexVal b, hexVal c2, hexVal d with
    | some x1, some x2, some x3, some x4 =>
      let n := ((x1 * 16 + x2) * 16 + x3) * 16 + x4
      if 0xd800 ≤ n ∧ n ≤ 0xdbff then escPair n rest3
      else if 0xdc00 ≤ n ∧ n ≤ 0xdfff then .error ()
      else .ok (Char.ofNat n, rest3)
    | _, _, _, _ => .error ()
  | _ => .error ()

/-- One string escape after the backslash: a \u escape or a single
character escape. -/
def escWindow : List Char → Except Unit (Char × List Char)
  | [] => .error ()
  | e :: rest2 =>
    if e = 'u' then escU rest2
    else
      match simpleEsc e with
      | some ch => .ok (ch, rest2)
      | none => .error ()

/-- The body of a JSON string literal, after the opening quote: the decoded
characters and the input following the closing quote.  Mirrors the strict
json.loads scanner: raw control characters are rejected and escapes are
decoded.  The fuel only makes the recursion structural; every step consumes
at least one character, so the fuel callers supply (remaining input length
plus one) is never exhausted. -/
def parseStrB : Nat → List Char → Except Unit (List Char × List Char)
  | 0, _ => .error ()
  | f + 1, cs =>
    match cs with
    | [] => .error ()
    | c :: rest =>
      if c = '"' then .ok ([], rest)
      else if c = '\\' then
        match escWindow rest with
        | .error _ => .error ()
        | .ok p => (parseStrB f p.2).map (fun q => (p.1 :: q.1, q.2))
      else if c.toNat < 0x20 then .error ()
      else (parseStrB f rest).map (fun q => (c :: q.1, q.2))

/-- Longest run of decimal digits at the head of the input. -/
def takeDigits : List Char → List Char × List Char
  | [] => ([], [])
  | c :: rest =>
    if c.isDigit then
      let p := takeDigits rest
      (c :: p.1, p.2)
    else ([], c :: rest)

/-- The integer part of a JSON number: 0, or a nonzero digit followed by
digits (the JSON grammar forbids redundant leading zeros). -/
def parseIntPart : List Char → Except Unit (List Char × List Char)
  | '0' :: r => .ok (['0'], r)
  | c :: r =>
    if c.isDigit then
      let p := takeDigits r
      .ok (c :: p.1, p.2)
    else .error ()
  | [] => .error ()

/-- The optional fraction part: a dot must be followed by digits. -/
def parseFracPart : List Char → Except Unit (List Char × List Char)
  | '.' :: r =>
    match takeDigits r with
    | ([], _) => .error ()
    | (ds, r2) => .ok ('.' :: ds, r2)
  | cs => .ok ([], cs)

/-- The optional exponent part: e or E, an optional sign, then digits. -/
def parseExpPart : List Char → Except Unit (List Char × List Char)
  | c :: r =>
    if c = 'e' ∨ c = 'E' then
      match r with
      | s :: r2 =>
        if s = '+' ∨ s = '-' then
          match takeDigits r2 with
          | ([], _) => .error ()
          | (ds, r3) => .ok (c :: s :: ds, r3)
        else
          match takeDigits r with
          | ([], _) => .error ()
          | (ds, r3) => .ok (c :: ds, r3)
      | [] => .error ()
    else .ok ([], c :: r)
  | [] => .ok ([], [])

/-- A JSON number lexeme (sign, integer part, fraction, exponent). -/
def parseNumber (cs : List Char) : Except Unit (List Char × List Char) :=
  match cs with
  | '-' :: r =>
    match parseIntPart r with
    | .error _ => .error ()
    | .ok (ip, r1) =>
      match parseFracPart r1 with
      | .error _ => .error ()
      | .ok (fp, r2) =>
        match parseExpPart r2 with
        | .error _ => .error ()
        | .ok (ep, r3) => .ok ('-' :: (ip ++ fp ++ ep), r3)
  | _ =>
    match parseIntPart cs with
    | .error _ => .error ()
    | .ok (ip, r1) =>
      match parseFracPart r1 with
      | .error _ => .error ()
      | .ok (fp, r2) =>
        match parseExpPart r2 with
        | .error _ => .error ()
        | .ok (ep, r3) => .ok (ip ++ fp ++ ep, r3)

/-- The keyword constants Python's default decoder accepts at value
position: true, false, null, and the non-standard NaN, Infinity and
-Infinity. -/
def parseConst (cs : List Char) : Option (JValue × List Char) :=
  match cs with
  | 't' :: 'r' :: 'u' :: 'e' :: rest => some (.bool true, rest)
  | 'f' :: 'a' :: 'l' :: 's' :: 'e' :: rest => some (.bool false, rest)
  | 'n' :: 'u' :: 'l' :: 'l' :: rest => some (.null, rest)
  | 'N' :: 'a' :: 'N' :: rest => some (.numLit "NaN", rest)
  | 'I' :: 'n' :: 'f' :: 'i' :: 'n' :: 'i' :: 't' :: 'y' :: rest =>
    some (.numLit "Infinity", rest)
  | '-' :: 'I' :: 'n' :: 'f' :: 'i' :: 'n' :: 'i' :: 't' :: 'y' :: rest =>
    some (.numLit "-Infinity", rest)
  | _ => none

/-- The three pending shapes of the recursive-descent JSON scanner: a value,
the members of an object being accumulated as a Python dict (duplicate keys
resolved by item assignment, last one winning), or the elements of an
array.  A single task type keeps the recursion structural in the fuel. -/
inductive PTask where
  | value (cs : List Char)
  | members (acc : List (String × JValue)) (cs : List Char)
  | elements (acc : List JValue) (cs : List Char)

/-- The JSON scanner of json.loads.  The fuel only makes the recursion
structural; every recursive step consumes at least one input character
first, so the fuel json_loads supplies (input length + 1) is never
exhausted. -/
def parseRun : Nat → PTask → Except Unit (JValue × List Char)
  | 0, _ => .error ()
  | f + 1, .value cs =>
    match cs with
    | [] => .error ()
    | c :: rest =>
      if c = '\x7b' then
        match skipWs rest with
        | '\x7d' :: r => .ok (.obj [], r)
        | cs2 => parseRun f (.members [] cs2)
      else if c = '[' then
        match skipWs rest with
        | ']' :: r => .ok (.arr [], r)
        | cs2 => parseRun f (.elements [] cs2)
      else if c = '"' then
        (parseStrB (rest.length + 1) rest).map (fun p => (.str (String.mk p.1), p.2))
      else
        match parseConst (c :: rest) with
        | some p => .ok p
        | none => (parseNumber (c :: rest)).map (fun p => (.numLit (String.mk p.1), p.2))
  | f + 1, .members acc cs =>
    match cs with
    | [] => .error ()
    | c :: rest =>
      if c = '"' then
        match parseStrB (rest.length + 1) rest with
        | .error _ => .error ()
        | .ok kp =>
          match skipWs kp.2 with
          | ':' :: r3 =>
            (match parseRun f (.value (skipWs r3)) with
             | .error _ => .error ()
             | .ok vp =>
               let acc2 := setItem acc (String.mk kp.1) vp.1
               match skipWs vp.2 with
               | ',' :: r5 => parseRun f (.members acc2 (skipWs r5))
               | '\x7d' :: r5 => .ok (.obj acc2, r5)
               | _ => .error ())
          | _ => .error ()
      else .error ()
  | f + 1, .elements acc cs =>
    match parseRun f (.value cs) with
    | .error _ => .error ()
    | .ok vp =>
      match skipWs vp.2 with
      | ',' :: r => parseRun f (.elements (acc ++ [vp.1]) (skipWs r))
      | ']' :: r => .ok (.arr (acc ++ [vp.1]), r)
      | _ => .error ()

/-- json.loads on a decoded text: skip leading whitespace, scan one value,
and require that only whitespace remains ("Extra data" otherwise). -/
def json_loads (cs : List Char) : Except Unit JValue :=
  match parseRun (cs.length + 1) (.value (skipWs cs)) with
  | .error _ => .error ()
  | .ok p => if skipWs p.2 = [] then .ok p.1 else .error ()

/-- The string escaping of json.dumps for one character.  (Python's default
ensure_ascii=True additionally writes non-ASCII characters as \u escapes;
json.loads maps both spellings to the same string, so the composition
through the wire is unchanged by modelling the unescaped spelling.) -/
def escapeChar (c : Char) : List Char :=
  if c = '"' then ['\\', '"']
  else if c = '\\' then ['\\', '\\']
  else if c = '\x08' then ['\\', 'b']
  else if c = '\x0c' then ['\\', 'f']
  else if c = '\n' then ['\\', 'n']
  else if c = '\r' then ['\\', 'r']
  else if c = '\t' then ['\\', 't']
  else if c.toNat < 0x20 then
    ['\\', 'u', '0', '0', hexDigit (c.toNat / 16), hexDigit (c.toNat % 16)]
  else [c]

/-- json.dumps escaping of a whole string body. -/
def escapeList : List Char → List Char
  | [] => []
  | c :: cs => escapeChar c ++ escapeList cs

/-- json.dumps of the two-field dict built by do_POST, with the default
separators: a dict literal of "username" then "message" in insertion
order. -/
def json_dumps (m : Message) : List Char :=
  '\x7b' :: '"' :: 'u' :: 's' :: 'e' :: 'r' :: 'n' :: 'a' :: 'm' :: 'e' :: '"' :: ':' :: ' ' :: '"' ::
    (escapeList m.username.data ++
      ('"' :: ',' :: ' ' :: '"' :: 'm' :: 'e' :: 's' :: 's' :: 'a' :: 'g' :: 'e' :: '"' :: ':' :: ' ' :: '"' ::
        (escapeList m.message.data ++ ['"', '\x7d'])))

/-- str.encode("utf-8") for one character, bytes as naturals. -/
def utf8EncodeChar (c : Char) : List Nat :=
  let n := c.toNat
  if n < 0x80 then [n]
  else if n < 0x800 then [0xc0 + n / 0x40, 0x80 + n % 0x40]
  else if n < 0x10000 then [0xe0 + n / 0x1000, 0x80 + n / 0x40 % 0x40, 0x80 + n % 0x40]
  else [0xf0 + n / 0x40000, 0x80 + n / 0x1000 % 0x40, 0x80 + n / 0x40 % 0x40, 0x80 + n % 0x40]

/-- str.encode("utf-8") for a whole text. -/
def utf8Encode : List Char → List Nat
  | [] => []
  | c :: cs => utf8EncodeChar c ++ utf8Encode cs

/-- Decode the continuation of a two-byte UTF-8 sequence with lead byte b. -/
def utf8Dec2 (b : Nat) : List Nat → Except Unit (Char × List Nat)
  | b1 :: rest1 =>
    if 0x80 ≤ b1 ∧ b1 ≤ 0xbf then
      .ok (Char.ofNat ((b - 0xc0) * 0x40 + (b1 - 0x80)), rest1)
    else .error ()
  | [] => .error ()

/-- Decode the continuation of a three-byte UTF-8 sequence with lead byte b;
the first continuation range depends on the lead byte, rejecting overlong
forms (lead 0xe0) and surrogates (lead 0xed). -/
def utf8Dec3 (b : Nat) : List Nat → Except Unit (Char × List Nat)
  | b1 :: b2 :: rest2 =>
    if (if b = 0xe0 then 0xa0 ≤ b1 ∧ b1 ≤ 0xbf
        else if b = 0xed then 0x80 ≤ b1 ∧ b1 ≤ 0x9f
        else 0x80 ≤ b1 ∧ b1 ≤ 0xbf) ∧ 0x80 ≤ b2 ∧ b2 ≤ 0xbf then
      .ok (Char.ofNat ((b - 0xe0) * 0x1000 + (b1 - 0x80) * 0x40 + (b2 - 0x80)), rest2)
    else .error ()
  | _ => .error ()

/-- Decode the continuation of a four-byte UTF-8 sequence with lead byte b;
the first continuation range depends on the lead byte, rejecting overlong
forms (lead 0xf0) and codepoints beyond 0x10ffff (lead 0xf4). -/
def utf8Dec4 (b : Nat) : List Nat → Except Unit (Char × List Nat)
  | b1 :: b2 :: b3 :: rest3 =>
    if (if b = 0xf0 then 0x90 ≤ b1 ∧ b1 ≤ 0xbf
        else if b = 0xf4 then 0x80 ≤ b1 ∧ b1 ≤ 0x8f
        else 0x80 ≤ b1 ∧ b1 ≤ 0xbf) ∧ (0x80 ≤ b2 ∧ b2 ≤ 0xbf) ∧ (0x80 ≤ b3 ∧ b3 ≤ 0xbf) then
      .ok (Char.ofNat ((b - 0xf0) * 0x40000 + (b1 - 0x80) * 0x1000 + (b2 - 0x80) * 0x40 + (b3 - 0x80)),
        rest3)
    else .error ()
  | _ => .error ()

/-- bytes.decode("utf-8"), strict: rejects stray continuation bytes,
overlong forms, surrogates and out-of-range lead bytes, raising
UnicodeDecodeError (the error case) otherwise.  The fuel only makes the
recursion structural; every step consumes at least one byte, so the fuel
utf8Decode supplies (input length + 1) is never exhausted. -/
def utf8DecodeLoop : Nat → List Nat → Except Unit (List Char)
  | 0, _ => .error ()
  | f + 1, bs =>
    match bs with
    | [] => .ok []
    | b :: rest =>
      if b < 0x80 then (utf8DecodeLoop f rest).map (fun cs => Char.ofNat b :: cs)
      else if b < 0xc2 then .error ()
      else if b ≤ 0xdf then
        match utf8Dec2 b rest with
        | .ok p => (utf8DecodeLoop f p.2).map (fun cs => p.1 :: cs)
        | .error _ => .error ()
      else if b ≤ 0xef then
        match utf8Dec3 b rest with
        | .ok p => (utf8DecodeLoop f p.2).map (fun cs => p.1 :: cs)
        | .error _ => .error ()
      else if b ≤ 0xf4 then
        match utf8Dec4 b rest with
        | .ok p => (utf8DecodeLoop f p.2).map (fun cs => p.1 :: cs)
        | .error _ => .error ()
      else .error ()

/-- bytes.decode("utf-8"). -/
def utf8Decode (bs : List Nat) : Except Unit (List Char) :=
  utf8DecodeLoop (bs.length + 1) bs

/-- The observable outcome of handle_socket_connection on one accepted
connection. -/
structure ConnResult where
  insertAttempts : List (List (String × JValue))  -- documents passed to collection.insert_one
  inserted : List (List (String × JValue))        -- documents the sink accepted
  loggedError : Bool                              -- some logging.error ran
  closed : Bool                                   -- conn.close() ran (the finally block)

/-- handle_socket_connection(conn, addr, collection): one recv of at most
1024 bytes (`sent` is what the client wrote before closing; per the
protocol the whole payload arrives in the single receive), skip if empty,
decode UTF-8, json.loads, stamp message["date"] with the receipt time (a
TypeError on a non-dict value), then one insert_one whose failure is
caught and logged; every branch finishes through the finally that closes
the connection, so the thread never propagates an exception. -/
def handle_socket_connection (sent : List Nat) (now : Nat) (insertOk : Bool) : ConnResult :=
  let data := sent.take 1024
  if data.isEmpty then ⟨[], [], false, true⟩
  else
    match utf8Decode data with
    | .error _ => ⟨[], [], true, true⟩          -- UnicodeDecodeError, caught and logged
    | .ok chars =>
      match json_loads chars with
      | .error _ => ⟨[], [], true, true⟩        -- JSONDecodeError, caught and logged
      | .ok (.obj fields) =>
        let message := setItem fields "date" (.date now)
        if insertOk then ⟨[message], [message], false, true⟩
        else ⟨[message], [], true, true⟩        -- insert_one raised; caught and logged
      | .ok _ => ⟨[], [], true, true⟩           -- message["date"] = ... on a non-dict: TypeError

/-- The parse stage of the handler on a received prefix: UTF-8 decode then
json.loads. -/
def payloadValue (data : List Nat) : Except Unit JValue :=
  match utf8Decode data with
  | .error _ => .error ()
  | .ok chars => json_loads chars

/-- The bytes send_to_socket writes for a message:
json.dumps(message).encode("utf-8"). -/
def deliveredBytes (m : Message) : List Nat :=
  utf8Encode (json_dumps m)

/-- One end-to-end hop: the socket server's handler applied to exactly the
bytes the HTTP front delivers for a message (single write, single read,
sender closes — the wire protocol of the spec). -/
def pipelineOnce (m : Message) (now : Nat) (insertOk : Bool) : ConnResult :=
  handle_socket_connection (deliveredBytes m) now insertOk

/-- The externally supplied configuration (config.py). -/
structure Config where
  httpHost : String
  httpPort : Nat
  socketHost : String
  socketPort : Nat
  mongoUri : String
  dbName : String
  collectionName : String

/-- The observable outcome of run_socket_server's startup. -/
structure SocketServerRun where
  healthCheckTimeoutMs : Nat              -- serverSelectionTimeoutMS of the startup ping
  loggedConnFailure : Bool                -- the ConnectionFailure branch logged
  bound : Bool                            -- the server socket was bound
  acceptLoopEntered : Bool                -- the accept loop was entered
  collection : Option (String × String)   -- db/collection handed to connection handlers

/-- run_socket_server: ping MongoDB with a 5000 ms server-selection timeout
inside try/except ConnectionFailure; on failure log and return before any
bind or accept; on success select client[DB_NAME][COLLECTION_NAME], bind,
listen and enter the accept loop, spawning handle_socket_connection per
connection. -/
def run_socket_server (cfg : Config) (pingOk : Bool) : SocketServerRun :=
  if pingOk then ⟨5000, false, true, true, some (cfg.dbName, cfg.collectionName)⟩
  else ⟨5000, true, false, false, none⟩

/-- The two processes the __main__ block starts and joins. -/
structure MainRun where
  httpStarted : Bool
  httpGet : (String → ReadResult) → (String → Option String) → Nat → String → Except PyExn (List Ev)
  socketRun : SocketServerRun

/-- __main__: start the HTTP server process (serving via do_GET/do_POST)
and the socket server process independently; neither start depends on the
other's fate. -/
def mainProcesses (cfg : Config) (pingOk : Bool) : MainRun :=
  ⟨true, do_GET, run_socket_server cfg pingOk⟩

/-- The file a GET for the given route asks send_html_file or
send_static_file to open (the error page itself for unknown routes). -/
def requestedFileOf (route : String) : String :=
  if route = "/" ∨ route = "/index.html" then "index.html"
  else if route = "/message.html" then "message.html"
  else if route = "/error.html" then "error.html"
  else if isStaticRoute route then normalizePath (pySlice1 route)
  else "error.html"

/-- Item assignment then lookup on a Python dict returns the assigned
value, whether or not the key was already present. -/
theorem getItem_setItem (fields : List (String × JValue)) (k : String) (v : JValue) :
    getItem (setItem fields k v) k = some v := by
  induction fields with
  | nil => simp [setItem, getItem]
  | cons hd tl ih =>
    by_cases hk : hd.1 = k
    · simp [setItem, getItem, hk]
    · simp [setItem, getItem, hk, ih]

/-- Decoding the UTF-8 encoding of one character from the head of a byte
stream yields that character and continues with the remaining bytes. -/
theorem utf8DecodeLoop_encodeChar (c : Char) (f : Nat) (bs : List Nat) :
    utf8DecodeLoop (f + 1) (utf8EncodeChar c ++ bs) =
      (utf8DecodeLoop f bs).map (fun cs => c :: cs) := by
  have hv : c.toNat < 0xd800 ∨ (0xdfff < c.toNat ∧ c.toNat < 0x110000) := c.valid
  have hofn : Char.ofNat c.toNat = c := Char.ofNat_toNat c
  by_cases h1 : c.toNat < 0x80
  · have e1 : utf8EncodeChar c = [c.toNat] := by simp [utf8EncodeChar, h1]
    rw [e1]
    simp only [List.cons_append, List.nil_append]
    simp only [utf8DecodeLoop]
    rw [if_pos h1]
    simp only [hofn]
  · by_cases h2 : c.toNat < 0x800
    · have e2 : utf8EncodeChar c = [0xc0 + c.toNat / 0x40, 0x80 + c.toNat % 0x40] := by
        simp [utf8EncodeChar, h1, h2]
      rw [e2]
      simp only [List.cons_append, List.nil_append]
      simp only [utf8DecodeLoop]
      rw [if_neg (by omega), if_neg (by omega), if_pos (by omega)]
      have hd2 : utf8Dec2 (0xc0 + c.toNat / 0x40) ((0x80 + c.toNat % 0x40) :: bs) = .ok (c, bs) := by
        simp only [utf8Dec2]
        rw [if_pos (by omega)]
        have hval : (0xc0 + c.toNat / 0x40 - 0xc0) * 0x40 + (0x80 + c.toNat % 0x40 - 0x80) =
            c.toNat := by omega
        rw [hval, hofn]
      rw [hd2]
    · by_cases h3 : c.toNat < 0x10000
      · have e3 : utf8EncodeChar c =
            [0xe0 + c.toNat / 0x1000, 0x80 + c.toNat / 0x40 % 0x40, 0x80 + c.toNat % 0x40] := by
          simp [utf8EncodeChar, h1, h2, h3]
        rw [e3]
        simp only [List.cons_append, List.nil_append]
        simp only [utf8DecodeLoop]
        rw [if_neg (by omega), if_neg (by omega), if_neg (by omega), if_pos (by omega)]
        have hd3 : utf8Dec3 (0xe0 + c.toNat / 0x1000)
            ((0x80 + c.toNat / 0x40 % 0x40) :: (0x80 + c.toNat % 0x40) :: bs) = .ok (c, bs) := by
          simp only [utf8Dec3]
          rw [if_pos (show _ ∧ _ from ⟨by split_ifs <;> omega, by omega, by omega⟩)]
          have hval : (0xe0 + c.toNat / 0x1000 - 0xe0) * 0x1000 +
              (0x80 + c.toNat / 0x40 % 0x40 - 0x80) * 0x40 + (0x80 + c.toNat % 0x40 - 0x80) =
              c.toNat := by omega
          rw [hval, hofn]
        rw [hd3]
      · have e4 : utf8EncodeChar c =
            [0xf0 + c.toNat / 0x40000, 0x80 + c.toNat / 0x1000 % 0x40,
             0x80 + c.toNat / 0x40 % 0x40, 0x80 + c.toNat % 0x40] := by
          simp [utf8EncodeChar, h1, h2, h3]
        rw [e4]
        simp only [List.cons_append, List.nil_append]
        simp only [utf8DecodeLoop]
        rw [if_neg (by omega), if_neg (by omega), if_neg (by omega), if_neg (by omega),
          if_pos (by omega)]
        have hd4 : utf8Dec4 (0xf0 + c.toNat / 0x40000)
            ((0x80 + c.toNat / 0x1000 % 0x40) :: (0x80 + c.toNat / 0x40 % 0x40) ::
              (0x80 + c.toNat % 0x40) :: bs) = .ok (c, bs) := by
          simp only [utf8Dec4]
          rw [if_pos (show _ ∧ _ from
            ⟨by split_ifs <;> omega, ⟨by omega, by omega⟩, by omega, by omega⟩)]
          have hval : (0xf0 + c.toNat / 0x40000 - 0xf0) * 0x40000 +
              (0x80 + c.toNat / 0x1000 % 0x40 - 0x80) * 0x1000 +
              (0x80 + c.toNat / 0x40 % 0x40 - 0x80) * 0x40 + (0x80 + c.toNat % 0x40 - 0x80) =
              c.toNat := by omega
          rw [hval, hofn]
        rw [hd4]

/-- With any sufficient fuel, the decode loop inverts UTF-8 encoding. -/
theorem utf8DecodeLoop_encode (cs : List Char) (f : Nat) :
    utf8DecodeLoop (cs.length + 1 + f) (utf8Encode cs) = .ok cs := by
  induction cs generalizing f with
  | nil =>
    have h : ([] : List Char).length + 1 + f = f + 1 := by simp only [List.length_nil]; omega
    rw [h]
    rfl
  | cons c rest ih =>
    show utf8DecodeLoop ((c :: rest).length + 1 + f) (utf8EncodeChar c ++ utf8Encode rest) = _
    have h : (c :: rest).length + 1 + f = (rest.length + 1 + f) + 1 := by
      simp only [List.length_cons]
      omega
    rw [h, utf8DecodeLoop_encodeChar, ih]
    rfl

/-- A character encodes to at least one byte. -/
theorem utf8EncodeChar_length_pos (c : Char) : 1 ≤ (utf8EncodeChar c).length := by
  simp only [utf8EncodeChar]
  split_ifs <;> simp

/-- Encoding cannot shrink a text. -/
theorem length_le_utf8Encode_length (cs : List Char) : cs.length ≤ (utf8Encode cs).length := by
  induction cs with
  | nil => simp [utf8Encode]
  | cons c rest ih =>
    have h1 := utf8EncodeChar_length_pos c
    simp only [utf8Encode, List.length_append, List.length_cons]
    omega

/-- Strict UTF-8 decoding is a left inverse of UTF-8 encoding. -/
theorem utf8Decode_utf8Encode (cs : List Char) : utf8Decode (utf8Encode cs) = .ok cs := by
  have hlen : cs.length ≤ (utf8Encode cs).length := length_le_utf8Encode_length cs
  have h : (utf8Encode cs).length + 1 = cs.length + 1 + ((utf8Encode cs).length - cs.length) := by
    omega
  simp only [utf8Decode]
  rw [h, utf8DecodeLoop_encode]

/-- The hex digits written by the serializer are read back by hexVal. -/
theorem hexVal_hexDigit : ∀ n, n < 16 → hexVal (hexDigit n) = some n := by decide

/-- Every character escapes to at least one character. -/
theorem escapeChar_length_pos (c : Char) : 1 ≤ (escapeChar c).length := by
  simp only [escapeChar]
  split_ifs <;> simp

/-- Escaping cannot shrink a string body. -/
theorem length_le_escapeList_length (l : List Char) : l.length ≤ (escapeList l).length := by
  induction l with
  | nil => simp [escapeList]
  | cons c cs ih =>
    have h1 := escapeChar_length_pos c
    simp only [escapeList, List.length_append, List.length_cons]
    omega

/-- Scanning the serializer's escaping of a string body, with any
sufficient fuel, recovers exactly that body and stops at the closing
quote. -/
theorem parseStrB_escapeList (l r : List Char) (f : Nat) :
    parseStrB (l.length + 1 + f) (escapeList l ++ '"' :: r) = .ok (l, r) := by
  induction l generalizing f with
  | nil =>
    have h : ([] : List Char).length + 1 + f = f + 1 := by simp only [List.length_nil]; omega
    rw [h]
    rfl
  | cons c cs ih =>
    have hlen : (c :: cs).length + 1 + f = (cs.length + 1 + f) + 1 := by
      simp only [List.length_cons]; omega
    show parseStrB _ ((escapeChar c ++ escapeList cs) ++ '"' :: r) = _
    rw [hlen, List.append_assoc]
    by_cases h1 : c = '"'
    · subst h1
      have e : escapeChar '"' = ['\\', '"'] := by decide
      rw [e]
      simp only [List.cons_append, List.nil_append]
      simp [parseStrB, escWindow, simpleEsc]
      rw [ih]
      rfl
    · by_cases h2 : c = '\\'
      · subst h2
        have e : escapeChar '\\' = ['\\', '\\'] := by decide
        rw [e]
        simp only [List.cons_append, List.nil_append]
        simp [parseStrB, escWindow, simpleEsc]
        rw [ih]
        rfl
      · by_cases h3 : c = '\x08'
        · subst h3
          have e : escapeChar '\x08' = ['\\', 'b'] := by decide
          rw [e]
          simp only [List.cons_append, List.nil_append]
          simp [parseStrB, escWindow, simpleEsc]
          rw [ih]
          rfl
        · by_cases h4 : c = '\x0c'
          · subst h4
            have e : escapeChar '\x0c' = ['\\', 'f'] := by decide
            rw [e]
            simp only [List.cons_append, List.nil_append]
            simp [parseStrB, escWindow, simpleEsc]
            rw [ih]
            rfl
          · by_cases h5 : c = '\n'
            · subst h5
              have e : escapeChar '\n' = ['\\', 'n'] := by decide
              rw [e]
              simp only [List.cons_append, List.nil_append]
              simp [parseStrB, escWindow, simpleEsc]
              rw [ih]
              rfl
            · by_cases h6 : c = '\r'
              · subst h6
                have e : escapeChar '\r' = ['\\', 'r'] := by decide
                rw [e]
                simp only [List.cons_append, List.nil_append]
                simp [parseStrB, escWindow, simpleEsc]
                rw [ih]
                rfl
              · by_cases h7 : c = '\t'
                · subst h7
                  have e : escapeChar '\t' = ['\\', 't'] := by decide
                  rw [e]
                  simp only [List.cons_append, List.nil_append]
                  simp [parseStrB, escWindow, simpleEsc]
                  rw [ih]
                  rfl
                · by_cases h8 : c.toNat < 0x20
                  · have e : escapeChar c =
                        ['\\', 'u', '0', '0', hexDigit (c.toNat / 16), hexDigit (c.toNat % 16)] := by
                      simp [escapeChar, h1, h2, h3, h4, h5, h6, h7, h8]
                    rw [e]
                    simp only [List.cons_append, List.nil_append]
                    have hU : escU ('0' :: '0' :: hexDigit (c.toNat / 16) ::
                        hexDigit (c.toNat % 16) :: (escapeList cs ++ '"' :: r)) =
                        .ok (c, escapeList cs ++ '"' :: r) := by
                      have h0 : hexVal '0' = some 0 := by decide
                      simp only [escU]
                      rw [h0, hexVal_hexDigit _ (by omega), hexVal_hexDigit _ (by omega)]
                      have hn : ((0 * 16 + 0) * 16 + c.toNat / 16) * 16 + c.toNat % 16 = c.toNat := by
                        omega
                      simp only [hn]
                      rw [if_neg (by omega), if_neg (by omega), Char.ofNat_toNat]
                    simp [parseStrB, escWindow, hU]
                    rw [ih]
                    rfl
                  · have e : escapeChar c = [c] := by
                      simp [escapeChar, h1, h2, h3, h4, h5, h6, h7, h8]
                    rw [e]
                    simp only [List.cons_append, List.nil_append]
                    simp only [parseStrB]
                    rw [if_neg h1, if_neg h2, if_neg h8]
                    rw [ih]
                    rfl

/-- The string scanner applied to an escaped body followed by a closing
quote, at the fuel the value scanner supplies. -/
theorem parseStrB_escTail (X R : List Char) :
    parseStrB ((escapeList X ++ '"' :: R).length + 1) (escapeList X ++ '"' :: R) = .ok (X, R) := by
  have hle := length_le_escapeList_length X
  have h : (escapeList X ++ '"' :: R).length + 1 =
      X.length + 1 + ((escapeList X).length - X.length + R.length + 1) := by
    simp only [List.length_append, List.length_cons]
    omega
  rw [h, parseStrB_escapeList]

/-- Except.map on a success, for rewriting. -/
theorem exceptMap_ok {α β ε : Type} (f : α → β) (x : α) :
    Except.map f (Except.ok x : Except ε α) = .ok (f x) := rfl

/-- Except.map on a failure, for rewriting. -/
theorem exceptMap_error {α β ε : Type} (f : α → β) (e : ε) :
    Except.map f (Except.error e : Except ε α) = .error e := rfl

/-- The string scanner on the serializer's "username" key. -/
theorem parseStrB_keyU (R : List Char) :
    parseStrB (('u' :: 's' :: 'e' :: 'r' :: 'n' :: 'a' :: 'm' :: 'e' :: '"' :: R).length + 1)
      ('u' :: 's' :: 'e' :: 'r' :: 'n' :: 'a' :: 'm' :: 'e' :: '"' :: R) =
      .ok (['u', 's', 'e', 'r', 'n', 'a', 'm', 'e'], R) := rfl

/-- The string scanner on the serializer's "message" key. -/
theorem parseStrB_keyM (R : List Char) :
    parseStrB (('m' :: 'e' :: 's' :: 's' :: 'a' :: 'g' :: 'e' :: '"' :: R).length + 1)
      ('m' :: 'e' :: 's' :: 's' :: 'a' :: 'g' :: 'e' :: '"' :: R) =
      .ok (['m', 'e', 's', 's', 'a', 'g', 'e'], R) := rfl

/-- The value scanner accepts the serializer's output for any message and
returns the two-field object, consuming the whole input. -/
theorem parseRun_json_dumps (g : Nat) (m : Message) :
    parseRun (g + 1 + 1 + 1 + 1) (.value (json_dumps m)) =
      .ok (.obj [("username", .str m.username), ("message", .str m.message)], []) := by
  have hk1 : String.mk ['u', 's', 'e', 'r', 'n', 'a', 'm', 'e'] = "username" := rfl
  have hk2 : String.mk ['m', 'e', 's', 's', 'a', 'g', 'e'] = "message" := rfl
  have hsu : String.mk m.username.data = m.username := rfl
  have hsm : String.mk m.message.data = m.message := rfl
  simp [json_dumps, parseRun, skipWs, parseStrB_keyU, parseStrB_keyM, parseStrB_escTail,
    setItem, exceptMap_ok, exceptMap_error, hk1, hk2, hsu, hsm,
    -List.length_cons, -List.length_append, -List.length_nil]

/-- json.loads inverts json.dumps on the two-field message dict. -/
theorem json_loads_json_dumps (m : Message) :
    json_loads (json_dumps m) =
      .ok (.obj [("username", .str m.username), ("message", .str m.message)]) := by
  have h31 : 31 ≤ (json_dumps m).length := by
    simp only [json_dumps, List.length_cons, List.length_append]
    omega
  have hws : skipWs (json_dumps m) = json_dumps m := by
    simp only [json_dumps]
    simp [skipWs]
  have hfuel : (json_dumps m).length + 1 = ((json_dumps m).length - 3) + 1 + 1 + 1 + 1 := by
    omega
  simp only [json_loads]
  rw [hws, hfuel, parseRun_json_dumps]
  rfl

/-- The bytes on the wire decode back to the serialized text. -/
theorem utf8Decode_deliveredBytes (m : Message) :
    utf8Decode (deliveredBytes m) = .ok (json_dumps m) :=
  utf8Decode_utf8Encode (json_dumps m)

/-- The connection handler closes the connection on every path: the
finally block runs regardless of success or failure. -/
theorem handle_socket_connection_closed (s : List Nat) (n : Nat) (o : Bool) :
    (handle_socket_connection s n o).closed = true := by
  simp only [handle_socket_connection]
  repeat' split
  all_goals rfl

/-- The handler's outcome depends only on the first 1024 bytes the client
sent: recv(1024) never reads further. -/
theorem handle_socket_connection_take (s : List Nat) (n : Nat) (o : Bool) :
    handle_socket_connection s n o = handle_socket_connection (s.take 1024) n o := by
  simp only [handle_socket_connection, List.take_take, Nat.min_self]

/-- On a payload whose received prefix parses as a JSON object, the handler
stamps the receipt date over the parsed fields and attempts exactly one
insert. -/
theorem handle_socket_connection_obj (s : List Nat) (n : Nat) (o : Bool)
    (fields : List (String × JValue))
    (h : payloadValue (s.take 1024) = .ok (.obj fields)) :
    handle_socket_connection s n o =
      ⟨[setItem fields "date" (.date n)],
       if o then [setItem fields "date" (.date n)] else [], !o, true⟩ := by
  have hpe : payloadValue [] = .error () := rfl
  have hne : (s.take 1024).isEmpty = false := by
    cases hemp : (s.take 1024).isEmpty
    · rfl
    · rw [List.isEmpty_iff] at hemp
      rw [hemp, hpe] at h
      exact Except.noConfusion h
  cases hdec : utf8Decode (s.take 1024) with
  | error e =>
    simp [payloadValue, hdec] at h
  | ok chars =>
    simp only [payloadValue, hdec] at h
    cases o
    · simp [handle_socket_connection, hne, hdec, h]
    · simp [handle_socket_connection, hne, hdec, h]

/-- On a nonempty received prefix that fails UTF-8 decoding or JSON
parsing, the handler inserts nothing, logs the error, and closes. -/
theorem handle_socket_connection_err (s : List Nat) (n : Nat) (o : Bool)
    (hne : s.take 1024 ≠ [])
    (h : payloadValue (s.take 1024) = .error ()) :
    handle_socket_connection s n o = ⟨[], [], true, true⟩ := by
  have hne2 : (s.take 1024).isEmpty = false := by
    cases hemp : (s.take 1024).isEmpty
    · rfl
    · rw [List.isEmpty_iff] at hemp
      exact absurd hemp hne
  cases hdec : utf8Decode (s.take 1024) with
  | error e =>
    simp [handle_socket_connection, hne2, hdec]
  | ok chars =>
    simp only [payloadValue, hdec] at h
    simp [handle_socket_connection, hne2, hdec, h]

/-- Claim C1 (code-bug evidence): a POST to /message whose form lacks the
message field logs the failure and sends the 404 error page, but THEN also
emits the 302 redirect to "/" on the same connection — send_to_socket's
early return only exits that helper method, and do_POST still calls
redirect_to_home.  The delivery is indeed not attempted, but the claim's
"no 302 is sent" contradicts the code. -/
theorem c1_missing_field_error_page_then_redirect :
    do_POST (fun _ => .found) 5 "/message" (some 7) [("username", ["alice"])] true =
      .ok [.logError, .page 404 "error.html" "text/html", .redirect "/"] := rfl

/-- Claim C3: for every POST to /message whose extracted username and
message are non-empty, the front makes exactly one delivery attempt (one
connect plus one sendall, no retry) and then responds with a 302 redirect
to "/" — also when the transport fails, in which case the failure is
additionally logged before the redirect. -/
theorem c3_valid_post_delivers_once_then_redirects
    (fs : String → ReadResult) (fuel cl : Nat) (params : List (String × List String))
    (transportOk : Bool)
    (hu : getFormValue params "username" ≠ "")
    (hm : getFormValue params "message" ≠ "") :
    do_POST fs fuel "/message" (some cl) params transportOk =
      .ok ([.deliver ⟨getFormValue params "username", getFormValue params "message"⟩] ++
        (if transportOk then [] else [.logError]) ++ [.redirect "/"]) := by
  cases transportOk <;> simp [do_POST, send_to_socket, hu, hm]

/-- Witness for C3 at a concrete failing-transport request. -/
theorem c3_witness :
    (getFormValue [("username", ["alice"]), ("message", ["hi"])] "username" ≠ "" ∧
      getFormValue [("username", ["alice"]), ("message", ["hi"])] "message" ≠ "") ∧
    do_POST (fun _ => .found) 3 "/message" (some 5)
        [("username", ["alice"]), ("message", ["hi"])] false =
      .ok ([.deliver ⟨getFormValue [("username", ["alice"]), ("message", ["hi"])] "username",
            getFormValue [("username", ["alice"]), ("message", ["hi"])] "message"⟩] ++
        (if false then [] else [.logError]) ++ [.redirect "/"]) :=
  ⟨⟨by decide, by decide⟩,
   c3_valid_post_delivers_once_then_redirects _ _ _ _ _ (by decide) (by decide)⟩

/-- Claim C10: a POST to /message without a Content-Length header raises an
uncaught TypeError — int(None) — before the body is read: no delivery is
attempted and no response, neither a redirect nor the error page, is sent
on that request. -/
theorem c10_missing_content_length_uncaught
    (fs : String → ReadResult) (fuel : Nat) (params : List (String × List String))
    (transportOk : Bool) :
    do_POST fs fuel "/message" none params transportOk = .error .typeError := by
  simp [do_POST]

/-- Claim C4: a malformed payload — nonempty received data that fails UTF-8
decoding or JSON parsing — leads to no insert and a logged error, and on
every path, success or failure, the connection is closed by the
finally-style cleanup; the handler is total, so the thread never
propagates an exception. -/
theorem c4_malformed_payload_dropped (sent : List Nat) (now : Nat) (insertOk : Bool)
    (hne : sent.take 1024 ≠ [])
    (hbad : payloadValue (sent.take 1024) = .error ()) :
    handle_socket_connection sent now insertOk = ⟨[], [], true, true⟩ ∧
      ∀ (s : List Nat) (n : Nat) (o : Bool), (handle_socket_connection s n o).closed = true :=
  ⟨handle_socket_connection_err sent now insertOk hne hbad,
   handle_socket_connection_closed⟩

/-- Witness for C4 at the one-byte payload "x". -/
theorem c4_witness :
    (([120] : List Nat).take 1024 ≠ [] ∧
      payloadValue (([120] : List Nat).take 1024) = .error ()) ∧
    handle_socket_connection [120] 7 true = ⟨[], [], true, true⟩ :=
  ⟨⟨by decide, by rfl⟩, (c4_malformed_payload_dropped [120] 7 true (by decide) (by rfl)).1⟩

/-- Claim C9 (amended): the handler's behaviour depends only on the first
1024 bytes sent — recv(1024) never reads beyond the buffer — and whenever
the truncated prefix fails to decode or parse, the message is dropped with
no insert attempted.  (A truncated prefix that still parses — e.g. a
payload whose excess is trailing whitespace — is processed as a normal
message; see the counterexample.) -/
theorem c9_buffer_truncation (sent : List Nat) (now : Nat) (insertOk : Bool) :
    handle_socket_connection sent now insertOk =
      handle_socket_connection (sent.take 1024) now insertOk ∧
    (payloadValue (sent.take 1024) = .error () →
      (handle_socket_connection sent now insertOk).insertAttempts = []) := by
  refine ⟨handle_socket_connection_take sent now insertOk, fun h => ?_⟩
  by_cases hne : sent.take 1024 = []
  · rw [handle_socket_connection_take sent now insertOk, hne]
    rfl
  · rw [handle_socket_connection_err sent now insertOk hne h]

/-- Witness for C9 at the unterminated one-byte payload containing an
opening brace. -/
theorem c9_witness :
    payloadValue ((utf8Encode "\x7b".data).take 1024) = .error () ∧
    (handle_socket_connection (utf8Encode "\x7b".data) 3 true).insertAttempts = [] :=
  ⟨by rfl, (c9_buffer_truncation (utf8Encode "\x7b".data) 3 true).2 (by rfl)⟩

/-- UTF-8 encoding distributes over append. -/
theorem utf8Encode_append (a b : List Char) :
    utf8Encode (a ++ b) = utf8Encode a ++ utf8Encode b := by
  induction a with
  | nil => rfl
  | cons c cs ih => simp [utf8Encode, ih, List.append_assoc]

/-- UTF-8 encoding of a run of one ASCII character. -/
theorem utf8Encode_replicate (n : Nat) (c : Char) (h : c.toNat < 0x80) :
    utf8Encode (List.replicate n c) = List.replicate n c.toNat := by
  induction n with
  | zero => rfl
  | succ k ih => simp [List.replicate_succ, utf8Encode, utf8EncodeChar, h, ih]

/-- Whitespace skipping consumes a run of spaces entirely. -/
theorem skipWs_replicate_space (n : Nat) : skipWs (List.replicate n ' ') = [] := by
  induction n with
  | zero => rfl
  | succ k ih => simp [List.replicate_succ, skipWs, ih]

/-- Claim C9 (counterexample): a payload longer than the 1024-byte buffer
whose excess is only trailing whitespace still parses after truncation,
and a complete document IS inserted — refuting the claim that a payload
truncated by the buffer fails to parse and is dropped with no document
inserted. -/
theorem c9_counterexample :
    1024 < (utf8Encode ("\x7b\"username\": \"a\", \"message\": \"b\"\x7d".data ++
      List.replicate 1000 ' ')).length ∧
    (handle_socket_connection
        (utf8Encode ("\x7b\"username\": \"a\", \"message\": \"b\"\x7d".data ++
          List.replicate 1000 ' ')) 5 true).inserted =
      [[("username", .str "a"), ("message", .str "b"), ("date", .date 5)]] := by
  have h33e : (utf8Encode "\x7b\"username\": \"a\", \"message\": \"b\"\x7d".data).length = 33 := by
    decide
  have hc : utf8Encode ("\x7b\"username\": \"a\", \"message\": \"b\"\x7d".data ++
      List.replicate 1000 ' ') =
      utf8Encode "\x7b\"username\": \"a\", \"message\": \"b\"\x7d".data ++
        List.replicate 1000 32 := by
    rw [utf8Encode_append, utf8Encode_replicate _ _ (by decide)]
    rfl
  constructor
  · rw [hc, List.length_append, List.length_replicate, h33e]
    omega
  · have htake : (utf8Encode ("\x7b\"username\": \"a\", \"message\": \"b\"\x7d".data ++
        List.replicate 1000 ' ')).take 1024 =
        utf8Encode ("\x7b\"username\": \"a\", \"message\": \"b\"\x7d".data ++
          List.replicate 991 ' ') := by
      rw [hc, utf8Encode_append, utf8Encode_replicate _ _ (by decide)]
      rw [List.take_append_eq_append_take]
      rw [List.take_of_length_le (by rw [h33e]; omega), h33e, List.take_replicate]
      norm_num
      rfl
    have hpv : payloadValue ((utf8Encode ("\x7b\"username\": \"a\", \"message\": \"b\"\x7d".data ++
        List.replicate 1000 ' ')).take 1024) =
        .ok (.obj [("username", .str "a"), ("message", .str "b")]) := by
      rw [htake]
      simp only [payloadValue]
      rw [utf8Decode_utf8Encode]
      show json_loads ("\x7b\"username\": \"a\", \"message\": \"b\"\x7d".data ++
        List.replicate 991 ' ') = _
      rw [show "\x7b\"username\": \"a\", \"message\": \"b\"\x7d".data =
        ['\x7b', '"', 'u', 's', 'e', 'r', 'n', 'a', 'm', 'e', '"', ':', ' ', '"', 'a', '"', ',',
         ' ', '"', 'm', 'e', 's', 's', 'a', 'g', 'e', '"', ':', ' ', '"', 'b', '"', '\x7d'] from
        rfl]
      simp [json_loads, parseRun, parseStrB, skipWs, skipWs_replicate_space, setItem,
        exceptMap_ok]
    rw [handle_socket_connection_obj _ 5 true _ hpv]
    rfl

/-- Claim C2 (counterexample): the payload "42" is well-formed JSON, yet no
document is inserted — json.loads returns an int, and the date assignment
message["date"] raises TypeError, which the handler catches and logs —
refuting "for every well-formed JSON payload ... exactly one document is
inserted". -/
theorem c2_counterexample :
    json_loads "42".data = .ok (.numLit "42") ∧
    handle_socket_connection (utf8Encode "42".data) 9 true = ⟨[], [], true, true⟩ :=
  ⟨by rfl, by rfl⟩

/-- Claim C2 (amended): for every connection whose received payload parses
as a JSON object, exactly one document is passed to insert_one and stored;
its date field is the receipt time, overriding any sender-supplied date;
and the accept loop hands handlers the collection selected from the
configured database and collection names.  Well-formed non-object payloads
are dropped with a logged TypeError. -/
theorem c2_object_payload_inserted (cfg : Config) (sent : List Nat) (now : Nat)
    (fields : List (String × JValue))
    (h : payloadValue (sent.take 1024) = .ok (.obj fields)) :
    (handle_socket_connection sent now true).inserted = [setItem fields "date" (.date now)] ∧
    getItem (setItem fields "date" (.date now)) "date" = some (.date now) ∧
    (run_socket_server cfg true).collection = some (cfg.dbName, cfg.collectionName) := by
  refine ⟨?_, getItem_setItem fields "date" (.date now), rfl⟩
  rw [handle_socket_connection_obj sent now true fields h]
  rfl

/-- Witness for C2 at a payload that smuggles a sender-chosen date: the
stored document carries the receipt time 42 instead. -/
theorem c2_witness :
    payloadValue ((utf8Encode "\x7b\"username\": \"al\", \"date\": \"1999\"\x7d".data).take 1024) =
      .ok (.obj [("username", .str "al"), ("date", .str "1999")]) ∧
    (handle_socket_connection (utf8Encode "\x7b\"username\": \"al\", \"date\": \"1999\"\x7d".data)
        42 true).inserted =
      [setItem [("username", .str "al"), ("date", .str "1999")] "date" (.date 42)] :=
  ⟨by rfl,
   (c2_object_payload_inserted ⟨"h", 0, "s", 0, "u", "db", "messages"⟩
      (utf8Encode "\x7b\"username\": \"al\", \"date\": \"1999\"\x7d".data) 42
      [("username", .str "al"), ("date", .str "1999")] (by rfl)).1⟩

/-- Claim C6 (counterexample): the request path /static/../secret.txt is a
/static/ route, yet the file served is the OS-resolved secret.txt, which
lies outside the static root — the handler strips the leading slash and
opens the raw relative path with no containment check. -/
theorem c6_counterexample :
    do_GET (fun p => if p = "secret.txt" then .found else .notFound) (fun _ => none) 3
        "/static/../secret.txt" =
      .ok [.page 200 "secret.txt" "application/octet-stream"] ∧
    underRoot "static" "secret.txt" = false :=
  ⟨by rfl, by rfl⟩

/-- Claim C6 (amended): a GET whose route starts with /static/ opens the
file at the OS-resolved form of the route with its leading slash stripped —
no containment check confines it to the static root, so ".." segments can
escape — and serves it with the content type guessed from the unresolved
path, falling back to application/octet-stream when the guess yields
nothing. -/
theorem c6_static_serving (fs : String → ReadResult) (guess : String → Option String)
    (fuel : Nat) (route : String)
    (hs : isStaticRoute route = true)
    (hf : fs (normalizePath (pySlice1 route)) = .found) :
    do_GET fs guess fuel route =
      .ok [.page 200 (normalizePath (pySlice1 route))
        ((guess (pySlice1 route)).getD "application/octet-stream")] := by
  have h1 : route ≠ "/" := fun he => by rw [he] at hs; exact absurd hs (by decide)
  have h2 : route ≠ "/index.html" := fun he => by rw [he] at hs; exact absurd hs (by decide)
  have h3 : route ≠ "/message.html" := fun he => by rw [he] at hs; exact absurd hs (by decide)
  have h4 : route ≠ "/error.html" := fun he => by rw [he] at hs; exact absurd hs (by decide)
  simp only [do_GET]
  rw [if_neg (fun hor => hor.elim h1 h2), if_neg h3, if_neg h4, if_pos hs]
  simp only [send_static_file, hf]

/-- Witness for C6 at a well-behaved static route. -/
theorem c6_witness :
    (isStaticRoute "/static/app.css" = true ∧
      (fun _ => ReadResult.found) (normalizePath (pySlice1 "/static/app.css")) = .found) ∧
    do_GET (fun _ => ReadResult.found) (fun _ => none) 4 "/static/app.css" =
      .ok [.page 200 (normalizePath (pySlice1 "/static/app.css"))
        (((fun _ => (none : Option String)) (pySlice1 "/static/app.css")).getD
          "application/octet-stream")] :=
  ⟨⟨by rfl, by rfl⟩, c6_static_serving _ _ 4 _ (by rfl) (by rfl)⟩

/-- Claim C7 (counterexample): a GET for / when no file is readable — the
error page included — makes send_html_file and send_error_page recurse
into each other without bound; at the interpreter's recursion limit
(modelled at depth 1000) the request dies with an uncaught RecursionError
and no 404 error page is ever produced, refuting "any failure to read the
requested file results in the error page with a not-found status ...
including when the error page file itself is the one that cannot be
read". -/
theorem c7_counterexample :
    do_GET (fun _ => .notFound) (fun _ => none) 1000 "/" = .error .recursionError := by
  rfl

/-- Claim C7 (amended): a missing requested file yields the 404 error page,
provided the error page file itself is readable and the recursion budget
is not exhausted; a read failure other than file-not-found instead
propagates as an uncaught exception, and an unreadable error page recurses
without bound (see the counterexample). -/
theorem c7_missing_file_gets_error_page (fs : String → ReadResult)
    (guess : String → Option String) (route : String) (fuel : Nat)
    (hfuel : 2 ≤ fuel)
    (hmiss : fs (requestedFileOf route) = .notFound)
    (herr : fs "error.html" = .found) :
    do_GET fs guess fuel route = .ok [.page 404 "error.html" "text/html"] := by
  obtain ⟨k, hk⟩ := Nat.exists_eq_add_of_le' hfuel
  subst hk
  by_cases hr1 : route = "/" ∨ route = "/index.html"
  · have hm : fs "index.html" = .notFound := by
      rcases hr1 with h | h <;> subst h <;> exact hmiss
    simp only [do_GET]
    rw [if_pos hr1]
    simp only [send_html_file, hm, herr]
  · by_cases hr2 : route = "/message.html"
    · subst hr2
      have hm : fs "message.html" = .notFound := hmiss
      simp only [do_GET]
      rw [if_neg hr1]
      simp only [if_true, send_html_file, hm, herr]
    · by_cases hr3 : route = "/error.html"
      · subst hr3
        have hm : fs "error.html" = .notFound := hmiss
        rw [hm] at herr
        exact ReadResult.noConfusion herr
      · by_cases hs : isStaticRoute route = true
        · have hm : fs (normalizePath (pySlice1 route)) = .notFound := by
            have := hmiss
            simp only [requestedFileOf] at this
            rw [if_neg hr1, if_neg hr2, if_neg hr3, if_pos hs] at this
            exact this
          simp only [do_GET]
          rw [if_neg hr1, if_neg hr2, if_neg hr3, if_pos hs]
          simp only [send_static_file, hm, send_error_page, send_html_file, herr]
        · have hm : fs "error.html" = .notFound := by
            have := hmiss
            simp only [requestedFileOf] at this
            rw [if_neg hr1, if_neg hr2, if_neg hr3, if_neg hs] at this
            exact this
          rw [hm] at herr
          exact ReadResult.noConfusion herr

/-- Witness for C7: GET / with index.html missing but error.html present. -/
theorem c7_witness :
    (2 ≤ 2 ∧
      (fun p => if p = "error.html" then ReadResult.found else .notFound)
        (requestedFileOf "/") = .notFound ∧
      (fun p => if p = "error.html" then ReadResult.found else .notFound) "error.html" = .found) ∧
    do_GET (fun p => if p = "error.html" then ReadResult.found else .notFound) (fun _ => none) 2
        "/" = .ok [.page 404 "error.html" "text/html"] :=
  ⟨⟨by omega, by rfl, by rfl⟩,
   c7_missing_file_gets_error_page _ _ "/" 2 (by omega) (by rfl) (by rfl)⟩

/-- Claim C5: when the startup health check (a ping bounded by a 5000 ms
server-selection timeout) finds the storage unreachable, the socket server
logs the connection failure and returns without binding and without
entering its accept loop, while the __main__ supervisor still starts the
HTTP process, whose page serving is the same do_GET function in either
case. -/
theorem c5_storage_unreachable_aborts_listener (cfg : Config) :
    run_socket_server cfg false = ⟨5000, true, false, false, none⟩ ∧
    (mainProcesses cfg false).httpStarted = true ∧
    (mainProcesses cfg false).httpGet = do_GET :=
  ⟨rfl, rfl, rfl⟩

/-- Claim C8 (amended): resubmission is not deduplicated — for every form
whose extracted username and message are non-empty and whose encoded wire
payload fits the 1024-byte receive buffer, each of two identical POSTs
performs its own delivery attempt, and the two delivered payloads are
stored as two separate documents, identical except for their receipt
dates. -/
theorem c8_resubmission_stores_twice (fs : String → ReadResult) (fuel cl : Nat)
    (params : List (String × List String)) (n1 n2 : Nat)
    (hu : getFormValue params "username" ≠ "")
    (hm : getFormValue params "message" ≠ "")
    (hlen : (deliveredBytes
      ⟨getFormValue params "username", getFormValue params "message"⟩).length ≤ 1024) :
    do_POST fs fuel "/message" (some cl) params true =
      .ok [.deliver ⟨getFormValue params "username", getFormValue params "message"⟩,
        .redirect "/"] ∧
    (pipelineOnce ⟨getFormValue params "username", getFormValue params "message"⟩ n1
        true).inserted ++
      (pipelineOnce ⟨getFormValue params "username", getFormValue params "message"⟩ n2
        true).inserted =
      [[("username", .str (getFormValue params "username")),
        ("message", .str (getFormValue params "message")), ("date", .date n1)],
       [("username", .str (getFormValue params "username")),
        ("message", .str (getFormValue params "message")), ("date", .date n2)]] := by
  have hpv : payloadValue ((deliveredBytes
      ⟨getFormValue params "username", getFormValue params "message"⟩).take 1024) =
      .ok (.obj [("username", .str (getFormValue params "username")),
        ("message", .str (getFormValue params "message"))]) := by
    rw [List.take_of_length_le hlen]
    simp only [payloadValue, deliveredBytes]
    rw [utf8Decode_utf8Encode]
    show json_loads
      (json_dumps ⟨getFormValue params "username", getFormValue params "message"⟩) = _
    rw [json_loads_json_dumps]
  constructor
  · simp [do_POST, send_to_socket, hu, hm]
  · simp only [pipelineOnce]
    rw [handle_socket_connection_obj _ n1 true _ hpv,
      handle_socket_connection_obj _ n2 true _ hpv]
    simp [setItem]

/-- Witness for C8 at a concrete small form, submitted at receipt times 11
and 12. -/
theorem c8_witness :
    (getFormValue [("username", ["alice"]), ("message", ["hi"])] "username" ≠ "" ∧
      getFormValue [("username", ["alice"]), ("message", ["hi"])] "message" ≠ "" ∧
      (deliveredBytes ⟨getFormValue [("username", ["alice"]), ("message", ["hi"])] "username",
        getFormValue [("username", ["alice"]), ("message", ["hi"])] "message"⟩).length ≤ 1024) ∧
    (pipelineOnce ⟨getFormValue [("username", ["alice"]), ("message", ["hi"])] "username",
        getFormValue [("username", ["alice"]), ("message", ["hi"])] "message"⟩ 11 true).inserted ++
      (pipelineOnce ⟨getFormValue [("username", ["alice"]), ("message", ["hi"])] "username",
        getFormValue [("username", ["alice"]), ("message", ["hi"])] "message"⟩ 12 true).inserted =
      [[("username", .str (getFormValue [("username", ["alice"]), ("message", ["hi"])] "username")),
        ("message", .str (getFormValue [("username", ["alice"]), ("message", ["hi"])] "message")),
        ("date", .date 11)],
       [("username", .str (getFormValue [("username", ["alice"]), ("message", ["hi"])] "username")),
        ("message", .str (getFormValue [("username", ["alice"]), ("message", ["hi"])] "message")),
        ("date", .date 12)]] :=
  ⟨⟨by decide, by decide, by decide⟩,
   (c8_resubmission_stores_twice (fun _ => .found) 3 5 [("username", ["alice"]), ("message", ["hi"])]
      11 12 (by decide) (by decide) (by decide)).2⟩

/-- The serializer leaves a run of the letter a unescaped. -/
theorem escapeList_replicate_a (n : Nat) :
    escapeList (List.replicate n 'a') = List.replicate n 'a' := by
  induction n with
  | zero => rfl
  | succ k ih => simp [List.replicate_succ, escapeList, escapeChar, ih]

/-- The string scanner never finds a closing quote in a run of the letter
a, whatever the fuel: a truncated, unterminated string is a parse error. -/
theorem parseStrB_replicate_a (f n : Nat) :
    parseStrB f (List.replicate n 'a') = .error () := by
  induction f generalizing n with
  | zero => rfl
  | succ k ih =>
    cases n with
    | zero => rfl
    | succ j => simp [List.replicate_succ, parseStrB, ih, exceptMap_error]

/-- The serialized form of the oversized test message, as an explicit
append of its 14-character head, the username run and its tail. -/
theorem c8big_dump :
    json_dumps ⟨String.mk (List.replicate 1100 'a'), "hi"⟩ =
      ['\x7b', '"', 'u', 's', 'e', 'r', 'n', 'a', 'm', 'e', '"', ':', ' ', '"'] ++
        (List.replicate 1100 'a' ++
          ['"', ',', ' ', '"', 'm', 'e', 's', 's', 'a', 'g', 'e', '"', ':', ' ', '"', 'h', 'i',
           '"', '\x7d']) := by
  have hhi : "hi".data = ['h', 'i'] := rfl
  simp [json_dumps, escapeList_replicate_a, escapeList, escapeChar, hhi]

/-- What recv(1024) keeps of the oversized message: the head and 1010 of
the username's letters. -/
theorem c8big_take :
    (utf8Encode (json_dumps ⟨String.mk (List.replicate 1100 'a'), "hi"⟩)).take 1024 =
      utf8Encode (['\x7b', '"', 'u', 's', 'e', 'r', 'n', 'a', 'm', 'e', '"', ':', ' ', '"'] ++
        List.replicate 1010 'a') := by
  have h14 : (utf8Encode ['\x7b', '"', 'u', 's', 'e', 'r', 'n', 'a', 'm', 'e', '"', ':', ' ',
      '"']).length = 14 := by decide
  have henc : utf8Encode (json_dumps ⟨String.mk (List.replicate 1100 'a'), "hi"⟩) =
      utf8Encode ['\x7b', '"', 'u', 's', 'e', 'r', 'n', 'a', 'm', 'e', '"', ':', ' ', '"'] ++
        (List.replicate 1100 97 ++
          utf8Encode ['"', ',', ' ', '"', 'm', 'e', 's', 's', 'a', 'g', 'e', '"', ':', ' ', '"',
            'h', 'i', '"', '\x7d']) := by
    rw [c8big_dump, utf8Encode_append, utf8Encode_append, utf8Encode_replicate _ _ (by decide)]
    rfl
  rw [henc, List.take_append_eq_append_take, List.take_of_length_le (by rw [h14]; omega), h14]
  rw [List.take_append_eq_append_take, List.take_replicate, List.length_replicate]
  rw [utf8Encode_append, utf8Encode_replicate _ _ (by decide)]
  simp

/-- Scanning the serializer's head (object brace, username key, colon and
opening quote) followed by a string body the string scanner rejects is a
parse error, whatever that body is. -/
theorem parseRun_headU_err (R : List Char) (g : Nat)
    (hR : parseStrB (R.length + 1) R = .error ()) :
    parseRun (g + 1 + 1 + 1)
      (.value ('\x7b' :: '"' :: 'u' :: 's' :: 'e' :: 'r' :: 'n' :: 'a' :: 'm' :: 'e' :: '"' ::
        ':' :: ' ' :: '"' :: R)) = .error () := by
  simp [parseRun, skipWs, parseStrB_keyU, hR, exceptMap_error,
    -List.length_cons, -List.length_append]

/-- The truncated serialized text is rejected by json.loads: the scanner
enters the username string and runs out of input before a closing quote. -/
theorem c8big_loads :
    json_loads (['\x7b', '"', 'u', 's', 'e', 'r', 'n', 'a', 'm', 'e', '"', ':', ' ', '"'] ++
      List.replicate 1010 'a') = .error () := by
  have hws : skipWs (['\x7b', '"', 'u', 's', 'e', 'r', 'n', 'a', 'm', 'e', '"', ':', ' ', '"'] ++
      List.replicate 1010 'a') =
      '\x7b' :: '"' :: 'u' :: 's' :: 'e' :: 'r' :: 'n' :: 'a' :: 'm' :: 'e' :: '"' :: ':' ::
        ' ' :: '"' :: List.replicate 1010 'a' := rfl
  have hL : (['\x7b', '"', 'u', 's', 'e', 'r', 'n', 'a', 'm', 'e', '"', ':', ' ', '"'] ++
      List.replicate 1010 'a').length + 1 = 1022 + 1 + 1 + 1 := by
    simp
  simp only [json_loads, hws, hL]
  rw [parseRun_headU_err (List.replicate 1010 'a') 1022 (parseStrB_replicate_a _ _)]

/-- The truncated oversized message fails to parse: its string value never
reaches a closing quote. -/
theorem c8big_parse_fails :
    payloadValue ((deliveredBytes
      ⟨String.mk (List.replicate 1100 'a'), "hi"⟩).take 1024) = .error () := by
  simp only [deliveredBytes]
  rw [c8big_take]
  simp only [payloadValue]
  rw [utf8Decode_utf8Encode]
  show json_loads (['\x7b', '"', 'u', 's', 'e', 'r', 'n', 'a', 'm', 'e', '"', ':', ' ', '"'] ++
    List.replicate 1010 'a') = .error ()
  exact c8big_loads

/-- The truncated oversized message is nonempty. -/
theorem c8big_nonempty :
    (deliveredBytes ⟨String.mk (List.replicate 1100 'a'), "hi"⟩).take 1024 ≠ [] := by
  simp only [deliveredBytes]
  rw [c8big_take]
  have h14 : (utf8Encode ['\x7b', '"', 'u', 's', 'e', 'r', 'n', 'a', 'm', 'e', '"', ':', ' ',
      '"']).length = 14 := by decide
  have hlen2 : (utf8Encode (['\x7b', '"', 'u', 's', 'e', 'r', 'n', 'a', 'm', 'e', '"', ':', ' ',
      '"'] ++ List.replicate 1010 'a')).length = 1024 := by
    rw [utf8Encode_append, List.length_append, h14, utf8Encode_replicate _ _ (by decide),
      List.length_replicate]
  intro hx
  rw [hx] at hlen2
  simp at hlen2

/-- Claim C8 (counterexample): a form whose username is 1100 letters — both
fields non-empty — encodes to a wire payload beyond the 1024-byte receive
buffer; the truncated string never terminates, parsing fails, and BOTH
submissions store nothing, refuting "submitting it twice ... produces two
distinct stored documents". -/
theorem c8_counterexample :
    String.mk (List.replicate 1100 'a') ≠ "" ∧
    (pipelineOnce ⟨String.mk (List.replicate 1100 'a'), "hi"⟩ 3 true).inserted = [] ∧
    (pipelineOnce ⟨String.mk (List.replicate 1100 'a'), "hi"⟩ 4 true).inserted = [] := by
  refine ⟨by decide, ?_, ?_⟩
  · simp only [pipelineOnce]
    rw [handle_socket_connection_err _ 3 true c8big_nonempty c8big_parse_fails]
  · simp only [pipelineOnce]
    rw [handle_socket_connection_err _ 4 true c8big_nonempty c8big_parse_fails]
